import Mathlib

/-!
Verification of the LLIDL parser and value-matching engine of
`llbase/llidl.py` (secondlife/python-llbase), by shallow embedding.

Embedding conventions:

* The six match outcomes are the Python `_Result` objects.  Each carries a
  float `_value` (4, 3, 2.2, 2.1, 1, 0); the only operations Python performs
  on those floats are `==`, `<`, `>=` and `int()` truncation, and every one
  of the six literals as well as their truncations is exactly representable
  for those operations, so `_value` is modelled as a pair
  `(int part, tenth digit)` of naturals ordered lexicographically
  (4.0 = (4,0), 2.2 = (2,2), 2.1 = (2,1), ...).  `int(x)` is the first
  component.
* Python `float` values are modelled by `PyFloat`: a finite float is an
  exact rational, plus `inf`, `ninf`, `nan`.  The matching code only tests
  floats for equality with small integers, truncates them with `int()`
  (which raises on non-finite input), and produces them with `float(str)`.
  IEEE-754 rounding of decimal literals with more than double precision,
  and overflow of huge exponents, are not modelled (no verified claim
  exercises them); `float(str)` is modelled as exact rational parsing of
  the decimal-literal grammar, with `inf`/`infinity`/`nan` keywords.
* `\d` in the two regular expressions is modelled as the ASCII digits
  (non-ASCII Unicode decimal digits are not modelled).
* Python `dict`s are modelled as insertion-ordered association lists with
  unique keys; Python `set`s of strings have a well-defined *membership*
  but an unspecified, hash-dependent iteration order, so every place where
  the source iterates over a set is parametrised by an enumeration that is
  assumed (as a hypothesis) to be a permutation of the set's elements.
* The payload of a `MatchErrorStack` (the diagnostic path) is modelled
  structurally but its string rendering is abstracted; no verified claim
  inspects those diagnostic strings.
-/

/-! ## The outcome lattice (`_Result`, llidl.py lines 45-100) -/

inductive Result where
  | INCOMPATIBLE
  | MIXED
  | ADDITIONAL
  | DEFAULTED
  | CONVERTED
  | MATCHED
deriving DecidableEq, Repr

open Result

/-- The `_value` field of each `_Result` constant, as (integer part, tenth).
`MATCHED=4, CONVERTED=3, DEFAULTED=2.2, ADDITIONAL=2.1, MIXED=1,
INCOMPATIBLE=0`. -/
def rvalue : Result → Nat × Nat
  | MATCHED      => (4, 0)
  | CONVERTED    => (3, 0)
  | DEFAULTED    => (2, 2)
  | ADDITIONAL   => (2, 1)
  | MIXED        => (1, 0)
  | INCOMPATIBLE => (0, 0)

/-- Lexicographic strict order on modelled float values: this is exactly
`<` on the six floats 0, 1, 2.1, 2.2, 3, 4 and their pairings. -/
def vlt (a b : Nat × Nat) : Bool :=
  a.1 < b.1 || (a.1 == b.1 && a.2 < b.2)

/-- `_Result.__eq__`: equality of the `_value` floats. -/
def req (a b : Result) : Bool := rvalue a == rvalue b

/-- `_Result.__lt__`: `<` on the `_value` floats. -/
def rlt (a b : Result) : Bool := vlt (rvalue a) (rvalue b)

/-- `>=` as derived by `functools.total_ordering` from `__lt__`:
`a >= b` iff `not a < b`. -/
def rge (a b : Result) : Bool := !(rlt a b)

/-- `<=` as derived by `total_ordering`: `a <= b` iff `a < b or a == b`. -/
def rle (a b : Result) : Bool := rlt a b || req a b

/-- `_Result.__and__` (llidl.py lines 81-88): compare the `int()` parts;
strictly smaller wins; equal int parts with different `_value`s collapse
to `MIXED`. -/
def rand (a b : Result) : Result :=
  let sv := (rvalue a).1
  let ov := (rvalue b).1
  if sv < ov then a
  else if ov < sv then b
  else if rvalue a ≠ rvalue b then MIXED
  else a

/-- `_Result.__or__` (llidl.py lines 90-93): `self` if
`self._value >= other._value` else `other`. -/
def ror (a b : Result) : Result :=
  if vlt (rvalue a) (rvalue b) then b else a

instance : Fintype Result :=
  ⟨⟨{INCOMPATIBLE, MIXED, ADDITIONAL, DEFAULTED, CONVERTED, MATCHED}, by decide⟩,
   by intro x; cases x <;> decide⟩

/-! ## Python floats (`PyFloat`) and python-level exceptions -/

/-- A Python `float` value: a finite float is modelled as the exact rational
it denotes; `inf`, `-inf` and `nan` are the non-finite values. -/
inductive PyFloat where
  | finite (q : ℚ)
  | inf
  | ninf
  | nan
deriving DecidableEq, Repr

/-- Python exceptions that can escape the matching engine. -/
inductive PyExc where
  | overflowError
  | valueError
  | zeroDivisionError
  | recursionError
  | attributeError
deriving DecidableEq, Repr

/-- Truncation of a rational toward zero: the value of Python `int(x)` for a
finite float `x`. -/
def pyTruncQ (q : ℚ) : Int := if 0 ≤ q then ⌊q⌋ else ⌈q⌉

/-- Python `int(x)` on a float: truncates finite values toward zero, raises
`OverflowError` on infinities and `ValueError` on `nan`. -/
def pyInt : PyFloat → Except PyExc Int
  | .finite q => .ok (pyTruncQ q)
  | .inf => .error .overflowError
  | .ninf => .error .overflowError
  | .nan => .error .valueError

/-- Python `x == i` between a float `x` and an integer `i` (`nan` and the
infinities compare unequal to every integer). -/
def pyFloatEqInt (x : PyFloat) (i : Int) : Bool :=
  match x with
  | .finite q => q == (i : ℚ)
  | _ => false

/-- Whether a Python float has an exact integral value. -/
def pyFloatIntegral : PyFloat → Bool
  | .finite q => q.den == 1
  | _ => false

/-! ### `float(string)` — Python float parsing, modelled exactly over the
decimal-literal grammar `[ws][sign](digits[.digits] | .digits)[exp][ws]`
plus the `inf`/`infinity`/`nan` keywords (case-insensitive).  Finite values
are kept as exact rationals (IEEE rounding and overflow of huge literals,
and digit-group underscores, are not modelled; no verified claim exercises
them). -/

/-- The characters Python `str.strip()` removes around a float literal. -/
def isPySpace (c : Char) : Bool :=
  c == ' ' || c == '\t' || c == '\n' || c == '\r' ||
  c == Char.ofNat 11 || c == Char.ofNat 12

def digitsToNat (ds : List Char) : Nat :=
  ds.foldl (fun a c => a * 10 + (c.toNat - 48)) 0

/-- Parse the exponent suffix `[(e|E)[sign]digits]`; returns the exponent
and requires the remainder to be empty. -/
def parseExp : List Char → Option Int
  | [] => some 0
  | c :: cs =>
    if c == 'e' || c == 'E' then
      let (sign, cs1) : Int × List Char :=
        match cs with
        | '+' :: cs2 => (1, cs2)
        | '-' :: cs2 => (-1, cs2)
        | cs2 => (1, cs2)
      let ds := cs1.takeWhile Char.isDigit
      if ds.isEmpty then none
      else if cs1.drop ds.length ≠ [] then none
      else some (sign * (digitsToNat ds : Int))
    else none

/-- Parse the mantissa-and-exponent part of a float literal (after the
sign): `digits[.digits][exp]` or `.digits[exp]`. -/
def parseDecimal (cs : List Char) : Option ℚ :=
  let ipart := cs.takeWhile Char.isDigit
  let rest := cs.drop ipart.length
  let (fpart, rest2) : List Char × List Char :=
    match rest with
    | '.' :: r2 => (r2.takeWhile Char.isDigit, r2.drop (r2.takeWhile Char.isDigit).length)
    | _ => ([], rest)
  if ipart.isEmpty && fpart.isEmpty then none
  else
    match parseExp rest2 with
    | none => none
    | some e =>
      let mant : Int := (digitsToNat ipart : Int) * (10 : Int) ^ fpart.length + (digitsToNat fpart : Int)
      let ex : Int := e - (fpart.length : Int)
      some (if 0 ≤ ex then (mant : ℚ) * (10 : ℚ) ^ ex.toNat
            else (mant : ℚ) / (10 : ℚ) ^ (-ex).toNat)

/-- Python `float(s)`: `none` models a raised `ValueError` (unparseable). -/
def pyFloatOfString (s : String) : Option PyFloat :=
  let cs := ((s.toList.dropWhile isPySpace).reverse.dropWhile isPySpace).reverse
  let (neg, cs1) : Bool × List Char :=
    match cs with
    | '+' :: cs2 => (false, cs2)
    | '-' :: cs2 => (true, cs2)
    | cs2 => (false, cs2)
  let low := cs1.map Char.toLower
  if low = ['i', 'n', 'f'] || low = ['i', 'n', 'f', 'i', 'n', 'i', 't', 'y'] then
    some (if neg then .ninf else .inf)
  else if low = ['n', 'a', 'n'] then some .nan
  else
    match parseDecimal cs1 with
    | some q => some (.finite (if neg then -q else q))
    | none => none

/-! ## LLSD values

The dynamic values fed to the matchers.  Matchers dispatch on the exact
Python type (`type(actual) == ...`), so each Python type is one tag; the
payloads of `datetime`/`date`, `uuid.UUID` and `llsd.binary` values are
never inspected by the matching code (`llsd.uri` is a `str` subclass but
`type(actual) in StringTypes` is an exact-type test, so `uri` is a
distinct tag). -/

inductive LLSD where
  | undef
  | bool (b : Bool)
  | int (n : Int)
  | real (x : PyFloat)
  | string (s : String)
  | date
  | uuidv
  | uri (s : String)
  | binary (bs : List Nat)
  | array (xs : List LLSD)
  | map (entries : List (String × LLSD))
deriving Repr

/-- `MatchError` (llidl.py lines 103-112). -/
structure MatchError where
  mesg : String
deriving DecidableEq, Repr

/-- An exception escaping a `_compare` call: a `MatchErrorStack` (whose
diagnostic payload is modelled as the path of matcher class names pushed
while unwinding, with the originating outcome; its string rendering is
abstracted), a `MatchError`, or a python-level exception. -/
inductive Err where
  | stack (entries : List (String × Option Result))
  | matchErr (e : MatchError)
  | pyExc (e : PyExc)
deriving DecidableEq, Repr

/-- The common epilogue of every leaf `_compare`:
`if raise_level is not None and r < raise_level: raise MatchErrorStack(...)`. -/
def raiseCheck (kind : String) (rl : Option Result) (r : Result) : Except Err Result :=
  match rl with
  | some lvl => if rlt r lvl then .error (.stack [(kind, some r)]) else .ok r
  | none => .ok r

/-! ## Leaf matchers (llidl.py lines 240-514) -/

/-- `_UndefMatcher._compare`: every value matches undef. -/
def UndefMatcher_compare (_actual : LLSD) (_rl : Option Result) : Except Err Result :=
  .ok MATCHED

/-- `_BoolMatcher._compare` (lines 245-264). -/
def BoolMatcher_compare (actual : LLSD) (rl : Option Result) : Except Err Result :=
  let r :=
    match actual with
    | .undef => DEFAULTED
    | .bool _ => MATCHED
    | .int n => if n = 0 ∨ n = 1 then CONVERTED else INCOMPATIBLE
    | .real x => if pyFloatEqInt x 0 || pyFloatEqInt x 1 then CONVERTED else INCOMPATIBLE
    | .string s => if s = "" ∨ s = "true" then CONVERTED else INCOMPATIBLE
    | _ => INCOMPATIBLE
  raiseCheck "_BoolMatcher" rl r

/-- `_TrueMatcher._compare` (lines 267-287): note `undef` falls through the
`NoneType` arm with `pass`, leaving `r = INCOMPATIBLE`. -/
def TrueMatcher_compare (actual : LLSD) (rl : Option Result) : Except Err Result :=
  let r :=
    match actual with
    | .undef => INCOMPATIBLE
    | .bool b => if b then MATCHED else INCOMPATIBLE
    | .int n => if n = 1 then CONVERTED else INCOMPATIBLE
    | .real x => if pyFloatEqInt x 1 then CONVERTED else INCOMPATIBLE
    | .string s => if s = "true" then CONVERTED else INCOMPATIBLE
    | _ => INCOMPATIBLE
  raiseCheck "_TrueMatcher" rl r

/-- `_FalseMatcher._compare` (lines 290-310): `undef` yields DEFAULTED. -/
def FalseMatcher_compare (actual : LLSD) (rl : Option Result) : Except Err Result :=
  let r :=
    match actual with
    | .undef => DEFAULTED
    | .bool b => if b then INCOMPATIBLE else MATCHED
    | .int n => if n = 0 then CONVERTED else INCOMPATIBLE
    | .real x => if pyFloatEqInt x 0 then CONVERTED else INCOMPATIBLE
    | .string s => if s = "" then CONVERTED else INCOMPATIBLE
    | _ => INCOMPATIBLE
  raiseCheck "_FalseMatcher" rl r

/-- `_IntMatcher._compare` (lines 313-341).  The float arm truncates inside
a `try` (`pass` on failure); the string arm parses `float(actual)` and
truncates inside a `try` whose `except` maps `""` to DEFAULTED. -/
def IntMatcher_compare (actual : LLSD) (rl : Option Result) : Except Err Result :=
  let r :=
    match actual with
    | .undef => DEFAULTED
    | .bool _ => CONVERTED
    | .int _ => MATCHED
    | .real x =>
      match pyInt x with
      | .ok i => if pyFloatEqInt x i then CONVERTED else INCOMPATIBLE
      | .error _ => INCOMPATIBLE
    | .string s =>
      match pyFloatOfString s with
      | some f =>
        match pyInt f with
        | .ok i => if pyFloatEqInt f i then CONVERTED else INCOMPATIBLE
        | .error _ => if s = "" then DEFAULTED else INCOMPATIBLE
      | none => if s = "" then DEFAULTED else INCOMPATIBLE
    | _ => INCOMPATIBLE
  raiseCheck "_IntMatcher" rl r

/-- `_NumberMatcher._compare` (lines 344-383).  In the float arm
`n = int(actual)` is *not* guarded by a `try`, so `int()` on a non-finite
float raises out of the comparison; the string arm guards
`int(float(actual))` with a bare `except`. -/
def NumberMatcher_compare (number : Int) (actual : LLSD) (rl : Option Result) :
    Except Err Result :=
  let nr : Except Err (Int × Result) :=
    match actual with
    | .undef => .ok (0, DEFAULTED)
    | .bool b => .ok (if b then 1 else 0, CONVERTED)
    | .int n => .ok (n, MATCHED)
    | .real x =>
      match pyInt x with
      | .ok n => .ok (n, CONVERTED)
      | .error e => .error (.pyExc e)
    | .string s =>
      match pyFloatOfString s with
      | some f =>
        match pyInt f with
        | .ok n => .ok (n, CONVERTED)
        | .error _ => .ok (0, if s = "" then DEFAULTED else INCOMPATIBLE)
      | none => .ok (0, if s = "" then DEFAULTED else INCOMPATIBLE)
    | _ => .ok (0, INCOMPATIBLE)
  match nr with
  | .error e => .error e
  | .ok (n, r0) =>
    let r := if r0 ≠ INCOMPATIBLE ∧ n ≠ number then INCOMPATIBLE else r0
    raiseCheck "_NumberMatcher" rl r

/-- `_RealMatcher._compare` (lines 386-407): the `except` arm for an
unparseable `""` returns DEFAULTED directly, skipping the raise check. -/
def RealMatcher_compare (actual : LLSD) (rl : Option Result) : Except Err Result :=
  match actual with
  | .undef => raiseCheck "_RealMatcher" rl DEFAULTED
  | .bool _ => raiseCheck "_RealMatcher" rl CONVERTED
  | .int _ => raiseCheck "_RealMatcher" rl CONVERTED
  | .real _ => raiseCheck "_RealMatcher" rl MATCHED
  | .string s =>
    match pyFloatOfString s with
    | some _ => raiseCheck "_RealMatcher" rl CONVERTED
    | none => if s = "" then .ok DEFAULTED else raiseCheck "_RealMatcher" rl INCOMPATIBLE
  | _ => raiseCheck "_RealMatcher" rl INCOMPATIBLE

/-- `_StringMatcher._compare` (lines 410-422): `r` starts at CONVERTED and
only `undef`, exact `str` and exact `llsd.binary` change it. -/
def StringMatcher_compare (actual : LLSD) (rl : Option Result) : Except Err Result :=
  let r :=
    match actual with
    | .undef => DEFAULTED
    | .string _ => MATCHED
    | .binary _ => INCOMPATIBLE
    | _ => CONVERTED
  raiseCheck "_StringMatcher" rl r

/-- `_NameMatcher._compare` (lines 425-440). -/
def NameMatcher_compare (name : String) (actual : LLSD) (rl : Option Result) :
    Except Err Result :=
  let r :=
    match actual with
    | .undef => if name = "" then DEFAULTED else INCOMPATIBLE
    | .string s => if name = s then MATCHED else INCOMPATIBLE
    | _ => INCOMPATIBLE
  raiseCheck "_NameMatcher" rl r

/-! ### The date regular expression

`_DateMatcher._dateRE` is
`re.compile(r'\d\d\d\d-\d\d-\d\dT\d\d:\d\d:\d\d(.\d+)?Z')`, used with
`.match`, which anchors only at the *start* of the string: trailing
characters after a match are ignored.  The `.` in the optional fraction
group is the regex metacharacter (any character but a newline), not a
literal dot. -/

/-- The fixed 19-character head `\d\d\d\d-\d\d-\d\dT\d\d:\d\d:\d\d`. -/
def dateFixedPrefix : List Char → Bool
  | [y1, y2, y3, y4, h1, m1, m2, h2, d1, d2, t, hh1, hh2, c1, mi1, mi2, c2, ss1, ss2] =>
    [y1, y2, y3, y4, m1, m2, d1, d2, hh1, hh2, mi1, mi2, ss1, ss2].all Char.isDigit &&
    h1 == '-' && h2 == '-' && t == 'T' && c1 == ':' && c2 == ':'
  | _ => false

/-- The tail `(.\d+)?Z` of the date regex, matched against the characters
after the fixed head: either a literal `Z`, or one arbitrary non-newline
character followed by one or more digits and a `Z` (since `Z` is not a
digit, the greedy `\d+` run is forced, so the backtracking search reduces
to this check). -/
def dateTail : List Char → Bool
  | [] => false
  | c :: restCs =>
    c == 'Z' ||
    (c != '\n' &&
      (!(restCs.takeWhile Char.isDigit).isEmpty &&
       ((restCs.dropWhile Char.isDigit).head? == some 'Z')))

/-- Whether `_dateRE.match(s)` succeeds (some prefix of `s` matches). -/
def dateREmatch (cs : List Char) : Bool :=
  dateFixedPrefix (cs.take 19) && dateTail (cs.drop 19)

/-- `_DateMatcher._compare` (lines 444-462): the regex test comes before
the `""` test; `datetime.datetime` and `datetime.date` give MATCHED. -/
def DateMatcher_compare (actual : LLSD) (rl : Option Result) : Except Err Result :=
  let r :=
    match actual with
    | .undef => DEFAULTED
    | .string s =>
      if dateREmatch s.toList then CONVERTED
      else if s = "" then DEFAULTED
      else INCOMPATIBLE
    | .date => MATCHED
    | _ => INCOMPATIBLE
  raiseCheck "_DateMatcher" rl r

/-- Hex digits accepted by `_UUIDMatcher._uuidRE`. -/
def isHexChar (c : Char) : Bool :=
  c.isDigit || ('a' ≤ c && c ≤ 'f') || ('A' ≤ c && c ≤ 'F')

/-- Consume exactly `n` hex characters, returning the remainder. -/
def takeHex : Nat → List Char → Option (List Char)
  | 0, restCs => some restCs
  | n + 1, c :: restCs => if isHexChar c then takeHex n restCs else none
  | _ + 1, [] => none

/-- Whether `_uuidRE.match(s)` succeeds: the 8-4-4-4-12 hex grouping as a
prefix of `s` (again, start-anchored only). -/
def uuidREmatch (cs : List Char) : Bool :=
  match takeHex 8 cs with
  | none => false
  | some r1 =>
    match r1 with
    | '-' :: r2 =>
      match takeHex 4 r2 with
      | none => false
      | some r3 =>
        match r3 with
        | '-' :: r4 =>
          match takeHex 4 r4 with
          | none => false
          | some r5 =>
            match r5 with
            | '-' :: r6 =>
              match takeHex 4 r6 with
              | none => false
              | some r7 =>
                match r7 with
                | '-' :: r8 => (takeHex 12 r8).isSome
                | _ => false
            | _ => false
        | _ => false
    | _ => false

/-- `_UUIDMatcher._compare` (lines 465-483). -/
def UUIDMatcher_compare (actual : LLSD) (rl : Option Result) : Except Err Result :=
  let r :=
    match actual with
    | .undef => DEFAULTED
    | .string s =>
      if uuidREmatch s.toList then CONVERTED
      else if s = "" then DEFAULTED
      else INCOMPATIBLE
    | .uuidv => MATCHED
    | _ => INCOMPATIBLE
  raiseCheck "_UUIDMatcher" rl r

/-- `_URIMatcher._compare` (lines 486-501). -/
def URIMatcher_compare (actual : LLSD) (rl : Option Result) : Except Err Result :=
  let r :=
    match actual with
    | .undef => DEFAULTED
    | .string s => if s = "" then DEFAULTED else CONVERTED
    | .uri _ => MATCHED
    | _ => INCOMPATIBLE
  raiseCheck "_URIMatcher" rl r

/-- `_BinaryMatcher._compare` (lines 504-514). -/
def BinaryMatcher_compare (actual : LLSD) (rl : Option Result) : Except Err Result :=
  let r :=
    match actual with
    | .undef => DEFAULTED
    | .binary _ => MATCHED
    | _ => INCOMPATIBLE
  raiseCheck "_BinaryMatcher" rl r

/-! ## The matcher tree and the recursive compare (llidl.py lines 517-661)

The Python classes form a closed set of matcher shapes; `Matcher` is that
sum type.  A `_VariantMatcher`'s `_suite` back-pointer is modelled by
passing the owning suite (or `none`, for a tree on which `_set_suite` was
never called, as with `parse_value` results) into the compare. -/

inductive Matcher where
  | undefM
  | boolM
  | trueM
  | falseM
  | intM
  | realM
  | stringM
  | dateM
  | uuidM
  | uriM
  | binaryM
  | numberM (number : Int)
  | nameM (name : String)
  | arrayM (values : List Matcher) (repeating : Bool)
  | mapM (members : List (String × Matcher))
  | dictM (value : Matcher)
  | variantM (name : String)
deriving Repr

/-- A `Suite`s three mappings (llidl.py lines 663-674); Python dicts are
insertion-ordered association lists with unique keys. -/
structure SuiteT where
  requests : List (String × Matcher)
  responses : List (String × Matcher)
  variants : List (String × List Matcher)
deriving Repr

/-- `Suite.__init__`: three empty mappings. -/
def SuiteEmpty : SuiteT := ⟨[], [], []⟩

/-- `Suite._get_variant_options`: `self._variants.get(name, [])`. -/
def getVariantOptions (su : SuiteT) (name : String) : List Matcher :=
  (su.variants.lookup name).getD []

/-- `_roundup` (llidl.py lines 517-518):
`value - 1 + (multiple - (value - 1) % multiple)`; Python `%` on a positive
modulus is euclidean `emod`. -/
def roundup (value multiple : Int) : Int :=
  value - 1 + (multiple - Int.emod (value - 1) multiple)

/-- The `for i in range(0, tlen)` loop of `_ArrayMatcher._compare`
(lines 556-564), over a child-compare function `cmp`: position `i`
compares `actual[i]` (undef beyond the end) against `values[i % vlen]`,
AND-folding, pushing a path segment on an unwinding `MatchErrorStack`;
the last argument counts the remaining positions. -/
def arrayFold (cmp : Matcher → LLSD → Except Err Result)
    (values : List Matcher) (xs : List LLSD) : Result → Nat → Nat → Except Err Result
  | r, _, 0 => .ok r
  | r, i, n + 1 =>
    match cmp (values.getD (i % values.length) .undefM) (xs.getD i LLSD.undef) with
    | .ok cr => arrayFold cmp values xs (rand r cr) (i + 1) n
    | .error (.stack es) => .error (.stack (("_ArrayMatcher", none) :: es))
    | .error e => .error e

/-- `_ArrayMatcher._compare` body after the list check (lines 544-565). -/
def arrayBodyG (cmp : Matcher → LLSD → Except Err Result) (rl : Option Result)
    (values : List Matcher) (repeating : Bool) (xs : List LLSD) : Except Err Result :=
  let vlen := values.length
  let alen := xs.length
  if repeating then
    if vlen = 0 then .error (.pyExc .zeroDivisionError)
    else arrayFold cmp values xs MATCHED 0 (roundup alen vlen).toNat
  else
    if alen > vlen then
      let r := rand MATCHED ADDITIONAL
      match rl with
      | some lvl =>
        if rlt r lvl then .error (.stack [("_ArrayMatcher", some ADDITIONAL)])
        else arrayFold cmp values xs r 0 vlen
      | none => arrayFold cmp values xs r 0 vlen
    else arrayFold cmp values xs MATCHED 0 vlen

/-- The loop over declared members of `_MapMatcher._compare`
(lines 592-600). -/
def memberFold (cmp : Matcher → LLSD → Except Err Result)
    (entries : List (String × LLSD)) :
    List (String × Matcher) → Result → Except Err Result
  | [], r => .ok r
  | (name, value) :: restMs, r =>
    match cmp value ((entries.lookup name).getD LLSD.undef) with
    | .ok cr => memberFold cmp entries restMs (rand r cr)
    | .error (.stack es) => .error (.stack (("_MapMatcher", none) :: es))
    | .error e => .error e

/-- `_MapMatcher._compare` body after the dict check (lines 591-608). -/
def mapBodyG (cmp : Matcher → LLSD → Except Err Result) (rl : Option Result)
    (members : List (String × Matcher)) (entries : List (String × LLSD)) :
    Except Err Result :=
  match memberFold cmp entries members MATCHED with
  | .error e => .error e
  | .ok r =>
    match entries.find? (fun kv => (members.lookup kv.1).isNone) with
    | some _ =>
      let r1 := rand r ADDITIONAL
      match rl with
      | some lvl =>
        if rlt r1 lvl then .error (.stack [("_MapMatcher", some ADDITIONAL)])
        else .ok r1
      | none => .ok r1
    | none => .ok r

/-- `_DictMatcher._compare` value loop (lines 627-634). -/
def dictFold (cmp : Matcher → LLSD → Except Err Result) (value : Matcher) :
    List (String × LLSD) → Result → Except Err Result
  | [], r => .ok r
  | (_, v) :: restEs, r =>
    match cmp value v with
    | .ok cr => dictFold cmp value restEs (rand r cr)
    | .error (.stack es) => .error (.stack (("_DictMatcher", none) :: es))
    | .error e => .error e

/-- `_VariantMatcher._compare` option loop (lines 651-660): OR-fold across
alternatives, collecting `MatchErrorStack`s; `errs` records whether any
were caught (their payload is abstracted).  When errors were collected and
`raise_level` is `None`, Python evaluates `r < None` and dies with an
`AttributeError`; that state is unreachable because children only raise
`MatchErrorStack` when `raise_level` is set. -/
def variantFold (cmp : Matcher → LLSD → Except Err Result) (rl : Option Result)
    (name : String) (actual : LLSD) :
    List Matcher → Result → Bool → Except Err Result
  | [], r, errs =>
    if errs then
      match rl with
      | some lvl =>
        if rlt r lvl then .error (.stack [("_VariantMatcher::" ++ name, none)])
        else .ok r
      | none => .error (.pyExc .attributeError)
    else .ok r
  | option :: restOpts, r, errs =>
    match cmp option actual with
    | .ok cr => variantFold cmp rl name actual restOpts (ror r cr) errs
    | .error (.stack _) => variantFold cmp rl name actual restOpts r true
    | .error e => .error e

/-- The polymorphic `_compare(actual, raise_level)` dispatch.  `fuel`
bounds the recursion depth (Python's recursion limit); all theorems
evaluate at adequate fuel. -/
def comp (su : Option SuiteT) : Nat → Option Result → Matcher → LLSD → Except Err Result
  | 0, _, _, _ => .error (.pyExc .recursionError)
  | fuel + 1, rl, m, actual =>
    match m with
    | .undefM => UndefMatcher_compare actual rl
    | .boolM => BoolMatcher_compare actual rl
    | .trueM => TrueMatcher_compare actual rl
    | .falseM => FalseMatcher_compare actual rl
    | .intM => IntMatcher_compare actual rl
    | .realM => RealMatcher_compare actual rl
    | .stringM => StringMatcher_compare actual rl
    | .dateM => DateMatcher_compare actual rl
    | .uuidM => UUIDMatcher_compare actual rl
    | .uriM => URIMatcher_compare actual rl
    | .binaryM => BinaryMatcher_compare actual rl
    | .numberM n => NumberMatcher_compare n actual rl
    | .nameM n => NameMatcher_compare n actual rl
    | .arrayM values repeating =>
      match actual with
      | .undef => arrayBodyG (comp su fuel rl) rl values repeating []
      | .array xs => arrayBodyG (comp su fuel rl) rl values repeating xs
      | _ =>
        if rl.isSome then .error (.stack [("_ArrayMatcher", some INCOMPATIBLE)])
        else .ok INCOMPATIBLE
    | .mapM members =>
      match actual with
      | .undef => mapBodyG (comp su fuel rl) rl members []
      | .map entries => mapBodyG (comp su fuel rl) rl members entries
      | _ =>
        if rl.isSome then .error (.stack [("_MapMatcher", some INCOMPATIBLE)])
        else .ok INCOMPATIBLE
    | .dictM value =>
      match actual with
      | .undef => dictFold (comp su fuel rl) value [] MATCHED
      | .map entries => dictFold (comp su fuel rl) value entries MATCHED
      | _ => .ok INCOMPATIBLE
    | .variantM name =>
      match su with
      | none => .ok INCOMPATIBLE
      | some s =>
        variantFold (comp su fuel rl) rl name actual (getVariantOptions s name)
          INCOMPATIBLE false

/-! ## `Value.match` / `Value.valid` and the test predicates
(llidl.py lines 196-236) -/

/-- The `raises` argument of `match`/`valid`: `None` (return a bool),
`True` (raise a `MatchError` built from the message), or a class /
callable / instance — all three are, observationally, a function from the
diagnostic message to the raised error (an instance is a constant
function). -/
inductive Raises where
  | rtrue
  | rexc (f : String → MatchError)

/-- `Value._failure(raises, message)` (lines 200-207). -/
def failureF (raises : Option Raises) (message : String) : Except Err Bool :=
  match raises with
  | none => .ok false
  | some .rtrue => .error (.matchErr ⟨message⟩)
  | some (.rexc f) => .error (.matchErr (f message))

/-- The string rendering of a `MatchErrorStack` — abstracted (no verified
claim inspects it). -/
def strStack (_entries : List (String × Option Result)) : String :=
  "<MatchErrorStack>"

/-- `Value.match(actual, raises, match_level)` (lines 209-218):
`raise_level` is `match_level` when `raises` is given, else `None`; only a
`MatchErrorStack` is caught and turned into `_failure`; other exceptions
(for example the `OverflowError` out of `_NumberMatcher`) propagate. -/
def matchV (su : Option SuiteT) (fuel : Nat) (m : Matcher) (actual : LLSD)
    (raises : Option Raises) (matchLevel : Result) : Except Err Bool :=
  let rl := if raises.isSome then some matchLevel else none
  match comp su fuel rl m actual with
  | .ok r => if rge r matchLevel then .ok true else failureF raises "did not match"
  | .error (.stack es) => failureF raises (strStack es)
  | .error e => .error e

/-- `Value.valid` (lines 220-222): `match` with `match_level=MIXED`. -/
def validV (su : Option SuiteT) (fuel : Nat) (m : Matcher) (actual : LLSD)
    (raises : Option Raises) : Except Err Bool :=
  matchV su fuel m actual raises MIXED

/-- `Value.has_defaulted` (lines 229-232). -/
def hasDefaultedV (su : Option SuiteT) (fuel : Nat) (m : Matcher) (actual : LLSD) :
    Except Err Bool :=
  match comp su fuel none m actual with
  | .ok r => .ok (req r DEFAULTED || req r MIXED)
  | .error e => .error e

/-- `Value.has_additional` (lines 224-227). -/
def hasAdditionalV (su : Option SuiteT) (fuel : Nat) (m : Matcher) (actual : LLSD) :
    Except Err Bool :=
  match comp su fuel none m actual with
  | .ok r => .ok (req r ADDITIONAL || req r MIXED)
  | .error e => .error e

/-- `Value.incompatible` (lines 234-236). -/
def incompatibleV (su : Option SuiteT) (fuel : Nat) (m : Matcher) (actual : LLSD) :
    Except Err Bool :=
  match comp su fuel none m actual with
  | .ok r => .ok (req r INCOMPATIBLE)
  | .error e => .error e

/-! ## Suite operations (llidl.py lines 663-727) -/

/-- An ASCII apostrophe, spelled via its code point. -/
def apos : String := String.mk [Char.ofNat 39]

/-- The message of the lookup failure raised by `Suite._get_request` /
`_get_response`: `"Resource name '%s' not found in suite."`. -/
def notFoundMsg (name : String) : String :=
  "Resource name " ++ apos ++ name ++ apos ++ " not found in suite."

/-- `Suite._get_request` (lines 685-689): a missing name raises a
`MatchError` before any comparison happens. -/
def getRequest (su : SuiteT) (name : String) : Except Err Matcher :=
  match su.requests.lookup name with
  | some v => .ok v
  | none => .error (.matchErr ⟨notFoundMsg name⟩)

/-- `Suite._get_response` (lines 691-695). -/
def getResponse (su : SuiteT) (name : String) : Except Err Matcher :=
  match su.responses.lookup name with
  | some v => .ok v
  | none => .error (.matchErr ⟨notFoundMsg name⟩)

/-- `Suite.match_request` (lines 713-715). -/
def matchRequest (su : SuiteT) (fuel : Nat) (name : String) (actual : LLSD)
    (raises : Option Raises) (matchLevel : Result) : Except Err Bool :=
  match getRequest su name with
  | .ok m => matchV (some su) fuel m actual raises matchLevel
  | .error e => .error e

/-- `Suite.match_response` (lines 717-719). -/
def matchResponse (su : SuiteT) (fuel : Nat) (name : String) (actual : LLSD)
    (raises : Option Raises) (matchLevel : Result) : Except Err Bool :=
  match getResponse su name with
  | .ok m => matchV (some su) fuel m actual raises matchLevel
  | .error e => .error e

/-- `Suite.valid_request` (lines 721-723). -/
def validRequest (su : SuiteT) (fuel : Nat) (name : String) (actual : LLSD)
    (raises : Option Raises) : Except Err Bool :=
  match getRequest su name with
  | .ok m => validV (some su) fuel m actual raises
  | .error e => .error e

/-- `Suite.valid_response` (lines 725-727). -/
def validResponse (su : SuiteT) (fuel : Nat) (name : String) (actual : LLSD)
    (raises : Option Raises) : Except Err Bool :=
  match getResponse su name with
  | .ok m => validV (some su) fuel m actual raises
  | .error e => .error e

/-- `Suite._add_resource` (lines 676-680). -/
def addResource (su : SuiteT) (name : String) (reqM resM : Matcher) : SuiteT :=
  { su with
    requests := su.requests ++ [(name, reqM)],
    responses := su.responses ++ [(name, resM)] }

/-- `Suite._has_resource` (lines 682-683). -/
def hasResource (su : SuiteT) (name : String) : Bool :=
  (su.requests.lookup name).isSome

/-- `Suite._add_variant` (lines 697-699):
`self._variants.setdefault(name, []).append(value)`. -/
def addVariant (su : SuiteT) (name : String) (value : Matcher) : SuiteT :=
  { su with
    variants :=
      match su.variants.lookup name with
      | some _ => su.variants.map (fun kv => if kv.1 == name then (kv.1, kv.2 ++ [value]) else kv)
      | none => su.variants ++ [(name, [value])] }

/-! ## `_variants_referenced` and `Suite._missing_variants`
(llidl.py lines 193-194, 530-534, 576-580, 618-619, 645-646, 704-711)

The Python code builds a `set`; the list below carries the same
*membership* (possibly with duplicates, removed by `dedup` at the point
of use).  A Python set's iteration order is hash-dependent, so every
consumer that iterates the set is parametrised by an enumeration. -/

mutual

def variantsReferenced : Matcher → List String
  | .variantM n => [n]
  | .arrayM values _ => variantsReferencedList values
  | .mapM members => variantsReferencedPairs members
  | .dictM v => variantsReferenced v
  | _ => []

def variantsReferencedList : List Matcher → List String
  | [] => []
  | v :: vs => variantsReferenced v ++ variantsReferencedList vs

def variantsReferencedPairs : List (String × Matcher) → List String
  | [] => []
  | (_, v) :: vs => variantsReferenced v ++ variantsReferencedPairs vs

end

/-- The variant names referenced anywhere in any request or response tree
of the suite (the set `refs` of `Suite._missing_variants`). -/
def allRefs (su : SuiteT) : List String :=
  (su.requests.map (fun kv => variantsReferenced kv.2)).flatten ++
  (su.responses.map (fun kv => variantsReferenced kv.2)).flatten

/-- `Suite._missing_variants` (lines 704-711): the referenced names minus
the defined names, as a duplicate-free list in first-reference order (one
admissible enumeration of the Python set). -/
def missingVariants (su : SuiteT) : List String :=
  (allRefs su).dedup.filter (fun n => (su.variants.lookup n).isNone)

/-! ## The parser (llidl.py lines 731-1000)

`_Parser` holds the input and a scanning state (absolute offset, line
count, offset of the current line's start).  Parse errors carry a 1-based
line and column. -/

/-- `ParseError` (lines 731-748). -/
structure ParseError where
  msg : String
  line : Nat
  char : Nat
deriving DecidableEq, Repr

/-- The `_Parser` scanner state. -/
structure PState where
  s : List Char
  offset : Nat
  line : Nat
  lineoffset : Nat
deriving Repr

/-- The unread input. -/
def rem (st : PState) : List Char := st.s.drop st.offset

/-- `_Parser.error` (lines 762-763): 1-based line and column. -/
def perror (st : PState) (msg : String) : ParseError :=
  ⟨msg, st.line + 1, st.offset - st.lineoffset + 1⟩

/-- `_Parser.parse_literal` (lines 776-782). -/
def parse_lit (lit : List Char) (st : PState) : Option PState :=
  if (rem st).take lit.length = lit then
    some { st with offset := st.offset + lit.length }
  else none

/-- `_Parser.parse_eof` (lines 771-774). -/
def parse_eofB (st : PState) : Bool := st.offset == st.s.length

/-- Length of a `;`-comment: `[^\n\r]*`. -/
def lineCommentLen (cs : List Char) : Nat :=
  (cs.takeWhile (fun c => !(c == '\n' || c == '\r'))).length

/-- Greedy match length of `_ws_re = (\t| |;[^\n\r]*)*`, fuelled (each
iteration consumes at least one character, so `length + 1` fuel is always
enough). -/
def wsLenF : Nat → List Char → Nat
  | 0, _ => 0
  | f + 1, cs =>
    match cs with
    | '\t' :: restCs => wsLenF f restCs + 1
    | ' ' :: restCs => wsLenF f restCs + 1
    | ';' :: restCs =>
      let k := lineCommentLen restCs
      wsLenF f (restCs.drop k) + (k + 1)
    | _ => 0

def wsLen (cs : List Char) : Nat := wsLenF (cs.length + 1) cs

/-- Match length of `_nl_re = \n|\r\n?` (0 when it does not match). -/
def nlLen : List Char → Nat
  | '\n' :: _ => 1
  | '\r' :: '\n' :: _ => 2
  | '\r' :: _ => 1
  | _ => 0

/-- One fuelled pass of `_Parser.parse_s` (lines 793-800): skip
whitespace/comments, then on a newline bump the line counter and repeat. -/
def parse_sF : Nat → PState → PState
  | 0, st => st
  | f + 1, st =>
    let st1 := { st with offset := st.offset + wsLen (rem st) }
    let k := nlLen (rem st1)
    if k = 0 then st1
    else parse_sF f
      { st1 with offset := st1.offset + k, line := st1.line + 1, lineoffset := st1.offset + k }

/-- `_Parser.parse_s`: the loop consumes at least one character per
newline iteration, so `length + 1` fuel always suffices. -/
def parse_s (st : PState) : PState := parse_sF (st.s.length + 1) st

/-- `_Parser.parseNumber` (lines 802-804): `\d+`. -/
def parseNumber (st : PState) : Option (List Char) × PState :=
  let ds := (rem st).takeWhile Char.isDigit
  if ds.isEmpty then (none, st)
  else (some ds, { st with offset := st.offset + ds.length })

def isNameStart (c : Char) : Bool := c.isAlpha || c == '_'

def isNameChar (c : Char) : Bool := c.isAlpha || c.isDigit || c == '_' || c == '/'

/-- Greedy match length of the tail `(?:[a-zA-Z0-9_/]|-(?!>))*` of
`_name_re`: a hyphen is consumed unless followed by `>`. -/
def nameTailLen : List Char → Nat
  | c :: restCs =>
    if isNameChar c then nameTailLen restCs + 1
    else if c == '-' && restCs.head? ≠ some '>' then nameTailLen restCs + 1
    else 0
  | [] => 0

/-- `_Parser.parseName` (lines 806-814): a name containing a hyphen is a
parse error (reported at the post-name offset, as in the source). -/
def parseName (st : PState) : Except ParseError (Option String × PState) :=
  match rem st with
  | c :: restCs =>
    if isNameStart c then
      let n := c :: restCs.take (nameTailLen restCs)
      let st1 := { st with offset := st.offset + n.length }
      if n.contains '-' then
        .error (perror st1 "malformed name: hyphen (-) not allowed")
      else .ok (some (String.mk n), st1)
    else .ok (none, st)
  | [] => .ok (none, st)

/-- `_Parser._typemap` (lines 816-828). -/
def typemap (s : String) : Option Matcher :=
  if s = "undef" then some .undefM
  else if s = "bool" then some .boolM
  else if s = "int" then some .intM
  else if s = "real" then some .realM
  else if s = "string" then some .stringM
  else if s = "date" then some .dateM
  else if s = "uuid" then some .uuidM
  else if s = "uri" then some .uriM
  else if s = "binary" then some .binaryM
  else if s = "true" then some .trueM
  else if s = "false" then some .falseM
  else none

/-- Opening curly bracket character. -/
def braceL : Char := Char.ofNat 123

/-- Closing curly bracket character. -/
def braceR : Char := Char.ofNat 125

mutual

/-- `_Parser.parse_value` (lines 886-912), fuelled (the fuel only bounds
the recursion; `input length + 2` always suffices). -/
def parseValueF : Nat → PState → Except ParseError (Option Matcher × PState)
  | 0, st => .error (perror st "fuel exhausted")
  | f + 1, st =>
    match parse_lit ['"'] st with
    | some st1 =>
      match parseName st1 with
      | .error e => .error e
      | .ok (none, st2) => .error (perror st2 "expected name in quotes")
      | .ok (some n, st2) =>
        match parse_lit ['"'] st2 with
        | some st3 => .ok (some (.nameM n), st3)
        | none => .error (perror st2 "expected close quote")
    | none =>
    match parse_lit ['['] st with
    | some st1 =>
      match parseRestOfArrayF f st1 with
      | .error e => .error e
      | .ok (m, st2) => .ok (some m, st2)
    | none =>
    match parse_lit [braceL] st with
    | some st1 =>
      match parseRestOfMapF f st1 with
      | .error e => .error e
      | .ok (m, st2) => .ok (some m, st2)
    | none =>
    match parse_lit ['&'] st with
    | some st1 =>
      match parseName st1 with
      | .error e => .error e
      | .ok (none, st2) => .error (perror st2 "expected variant name")
      | .ok (some n, st2) => .ok (some (.variantM n), st2)
    | none =>
    match parseNumber st with
    | (some ds, st1) => .ok (some (.numberM (digitsToNat ds : Int)), st1)
    | (none, _) =>
      match parseName st with
      | .error e => .error e
      | .ok (some n, st2) =>
        match typemap n with
        | some m => .ok (some m, st2)
        | none => .error (perror st2 "unknown type")
      | .ok (none, st2) => .ok (none, st2)

/-- `_Parser._parse_rest_of_array` (lines 831-851). -/
def parseRestOfArrayF : Nat → PState → Except ParseError (Matcher × PState)
  | 0, st => .error (perror st "fuel exhausted")
  | f + 1, st =>
    match arrValuesF f (parse_s st) [] with
    | .error e => .error e
    | .ok (values, st1) =>
      let (repeating, st2) : Bool × PState :=
        match parse_lit ['.', '.', '.'] st1 with
        | some st2 => (true, parse_s st2)
        | none => (false, st1)
      match parse_lit [']'] st2 with
      | none => .error (perror st2 "expected close bracket")
      | some st3 =>
        if values.isEmpty then .error (perror st3 "empty array")
        else .ok (.arrayM values repeating, st3)

/-- The value-collecting loop of `_parse_rest_of_array`. -/
def arrValuesF : Nat → PState → List Matcher → Except ParseError (List Matcher × PState)
  | 0, st, _ => .error (perror st "fuel exhausted")
  | f + 1, st, acc =>
    match parseValueF f st with
    | .error e => .error e
    | .ok (none, st1) => .ok (acc, st1)
    | .ok (some v, st1) =>
      let st2 := parse_s st1
      match parse_lit [','] st2 with
      | some st3 => arrValuesF f (parse_s st3) (acc ++ [v])
      | none => .ok (acc ++ [v], st2)

/-- `_Parser._parse_rest_of_map` (lines 853-884). -/
def parseRestOfMapF : Nat → PState → Except ParseError (Matcher × PState)
  | 0, st => .error (perror st "fuel exhausted")
  | f + 1, st =>
  let st0 := parse_s st
  match parse_lit ['$'] st0 with
  | some st1 =>
    let st2 := parse_s st1
    match parse_lit [':'] st2 with
    | none => .error (perror st2 "expected colon")
    | some st3 =>
      match parseValueF f (parse_s st3) with
      | .error e => .error e
      | .ok (none, st4) => .error (perror st4 "expected value")
      | .ok (some v, st4) =>
        let st5 := parse_s st4
        match parse_lit [braceR] st5 with
        | none => .error (perror st5 "expected close bracket")
        | some st6 => .ok (.dictM v, st6)
  | none =>
    match mapMembersF f st0 [] with
    | .error e => .error e
    | .ok (members, st1) =>
      match parse_lit [braceR] st1 with
      | none => .error (perror st1 "expected close bracket")
      | some st2 =>
        if members.isEmpty then .error (perror st2 "empty map")
        else .ok (.mapM members, st2)

/-- The member-collecting loop of `_parse_rest_of_map`. -/
def mapMembersF : Nat → PState → List (String × Matcher) →
    Except ParseError (List (String × Matcher) × PState)
  | 0, st, _ => .error (perror st "fuel exhausted")
  | f + 1, st, acc =>
    match parseName st with
    | .error e => .error e
    | .ok (none, st1) => .ok (acc, st1)
    | .ok (some k, st1) =>
      if (acc.lookup k).isSome then .error (perror st1 "duplicate key in map")
      else
        let st2 := parse_s st1
        match parse_lit [':'] st2 with
        | none => .error (perror st2 "expected colon")
        | some st3 =>
          match parseValueF f (parse_s st3) with
          | .error e => .error e
          | .ok (none, st4) => .error (perror st4 "expected value")
          | .ok (some v, st4) =>
            let st5 := parse_s st4
            match parse_lit [','] st5 with
            | some st6 => mapMembersF f (parse_s st6) (acc ++ [(k, v)])
            | none => .ok (acc ++ [(k, v)], st5)

end

/-- `_Parser._parse_rest_of_body_resource` (lines 923-925). -/
def parseRestOfBody (f : Nat) (st : PState) : Except ParseError (Matcher × PState) :=
  match parseValueF f (parse_s st) with
  | .error e => .error e
  | .ok (none, st1) => .error (perror st1 "expected body value")
  | .ok (some v, st1) => .ok (v, st1)

/-- `_Parser._parse_rest_of_post_resource` (lines 914-921). -/
def parseRestOfPost (f : Nat) (st : PState) :
    Except ParseError ((Matcher × Matcher) × PState) :=
  match parseValueF f (parse_s st) with
  | .error e => .error e
  | .ok (none, st1) => .error (perror st1 "expected request value")
  | .ok (some reqM, st1) =>
    let st2 := parse_s st1
    match parse_lit ['<', '-'] st2 with
    | none => .error (perror st2 "expected result arrow")
    | some st3 =>
      match parseValueF f (parse_s st3) with
      | .error e => .error e
      | .ok (none, st4) => .error (perror st4 "expected result value")
      | .ok (some resM, st4) => .ok ((reqM, resM), st4)

/-- `_Parser._parse_rest_of_resource` (lines 943-961): the four method
arrows; `<<` gives an implicit undef request, `>>` an implicit undef
response, `<>` and `<x>` use the body for both. -/
def parseRestOfResource (f : Nat) (su : SuiteT) (st : PState) :
    Except ParseError (SuiteT × PState) :=
  match parseName (parse_s st) with
  | .error e => .error e
  | .ok (none, st1) => .error (perror st1 "expected resource name")
  | .ok (some name, st1) =>
    if hasResource su name then .error (perror st1 "duplicate resource name")
    else
      let st2 := parse_s st1
      match parse_lit ['-', '>'] st2 with
      | some st3 =>
        match parseRestOfPost f st3 with
        | .error e => .error e
        | .ok ((reqM, resM), st4) => .ok (addResource su name reqM resM, st4)
      | none =>
      match parse_lit ['<', '<'] st2 with
      | some st3 =>
        match parseRestOfBody f st3 with
        | .error e => .error e
        | .ok (body, st4) => .ok (addResource su name .undefM body, st4)
      | none =>
      match parse_lit ['>', '>'] st2 with
      | some st3 =>
        match parseRestOfBody f st3 with
        | .error e => .error e
        | .ok (body, st4) => .ok (addResource su name body .undefM, st4)
      | none =>
      match parse_lit ['<', '>'] st2 with
      | some st3 =>
        match parseRestOfBody f st3 with
        | .error e => .error e
        | .ok (body, st4) => .ok (addResource su name body body, st4)
      | none =>
      match parse_lit ['<', 'x', '>'] st2 with
      | some st3 =>
        match parseRestOfBody f st3 with
        | .error e => .error e
        | .ok (body, st4) => .ok (addResource su name body body, st4)
      | none =>
        .error (perror st2 "unknown resource type, expected ->, <<, >>, <> or <*>")

/-- `_Parser._parse_rest_of_variant` (lines 964-970). -/
def parseRestOfVariant (f : Nat) (su : SuiteT) (st : PState) :
    Except ParseError (SuiteT × PState) :=
  match parseName st with
  | .error e => .error e
  | .ok (none, st1) => .error (perror st1 "expected variant name")
  | .ok (some name, st1) =>
    let st2 := parse_s st1
    match parse_lit ['='] st2 with
    | none => .error (perror st2 "expected equals sign")
    | some st3 =>
      match parseValueF f (parse_s st3) with
      | .error e => .error e
      | .ok (none, st4) => .error (perror st4 "expected variant value")
      | .ok (some v, st4) => .ok (addVariant su name v, st4)

/-- The `%%` / `&` loop of `_Parser.parse_suite` (lines 972-981). -/
def parseSuiteLoopF : Nat → SuiteT → PState → Except ParseError (SuiteT × PState)
  | 0, _, st => .error (perror st "fuel exhausted")
  | f + 1, su, st =>
    let st1 := parse_s st
    match parse_lit ['%', '%'] st1 with
    | some st2 =>
      match parseRestOfResource f su st2 with
      | .error e => .error e
      | .ok (su1, st3) => parseSuiteLoopF f su1 st3
    | none =>
      match parse_lit ['&'] st1 with
      | some st2 =>
        match parseRestOfVariant f su st2 with
        | .error e => .error e
        | .ok (su1, st3) => parseSuiteLoopF f su1 st3
      | none => .ok (su, st1)

/-- The completeness epilogue of `_Parser.parse_suite` (lines 982-985):
on a non-empty missing set, raise a parse error joining the names in the
set's iteration order, given here by the enumeration `enum` (assumed, in
the theorems, to be a permutation of the missing set). -/
def parseSuiteF (f : Nat) (enum : List String → List String) (st : PState) :
    Except ParseError (SuiteT × PState) :=
  match parseSuiteLoopF f SuiteEmpty st with
  | .error e => .error e
  | .ok (su, st1) =>
    let missing := missingVariants su
    if missing.isEmpty then .ok (su, st1)
    else .error (perror st1
      ("missing definitions of variants: " ++ String.intercalate ", " (enum missing)))

/-- The initial scanner state over an input string. -/
def initState (s : String) : PState := ⟨s.toList, 0, 0, 0⟩

/-- `llidl.parse_value` (lines 988-993). -/
def parse_value (s : String) : Except ParseError Matcher :=
  match parseValueF (s.length + 2) (initState s) with
  | .error e => .error e
  | .ok (none, st1) => .error (perror st1 "expected value")
  | .ok (some v, st1) =>
    if parse_eofB st1 then .ok v else .error (perror st1 "expected end of input")

/-- `llidl.parse_suite` (lines 995-1000), parametrised by the
missing-variant-set enumeration. -/
def parse_suite (enum : List String → List String) (s : String) :
    Except ParseError SuiteT :=
  match parseSuiteF (s.length + 2) enum (initState s) with
  | .error e => .error e
  | .ok (su, st1) =>
    if parse_eofB st1 then .ok su else .error (perror st1 "expected end of input")

/-! ## Claim-side (specification) formulations

These definitions follow the *spec text* of the claims, to be compared
with the definitions above, which follow the source. -/

/-- C4's classification of the Int value-kind matcher, as the spec words
it: undefined→DEFAULTED; bool→CONVERTED; int→MATCHED; a real with an
exact integral value→CONVERTED; ""→DEFAULTED; a string parseable as a
float with an exact integral value→CONVERTED; everything else
INCOMPATIBLE. -/
def intClaimClass (v : LLSD) : Result :=
  match v with
  | .undef => DEFAULTED
  | .bool _ => CONVERTED
  | .int _ => MATCHED
  | .real x => if pyFloatIntegral x then CONVERTED else INCOMPATIBLE
  | .string s =>
    if s = "" then DEFAULTED
    else
      match pyFloatOfString s with
      | some f => if pyFloatIntegral f then CONVERTED else INCOMPATIBLE
      | none => INCOMPATIBLE
  | _ => INCOMPATIBLE

/-- C5's *claimed* pattern: the whole string is
`YYYY-MM-DDTHH:MM:SS[.fraction]Z` with a literal dot as the fraction
separator and nothing after the final `Z`. -/
def canonicalTimestamp (cs : List Char) : Bool :=
  dateFixedPrefix (cs.take 19) &&
  (match cs.drop 19 with
   | ['Z'] => true
   | '.' :: restCs =>
     !(restCs.takeWhile Char.isDigit).isEmpty &&
     restCs.dropWhile Char.isDigit == ['Z']
   | _ => false)

/-- The declarative (regex-semantics) reading of `_dateRE.match`: some
decomposition of the string into the 19-character fixed head, then either
a literal `Z`, or one non-newline character, one or more digits, and a
`Z`, with arbitrary trailing characters. -/
def datePatternDecl (cs : List Char) : Prop :=
  ∃ p restCs, cs = p ++ restCs ∧ dateFixedPrefix p = true ∧
    ((∃ t, restCs = 'Z' :: t) ∨
     (∃ c ds t, restCs = c :: (ds ++ 'Z' :: t) ∧ c ≠ '\n' ∧ ds ≠ [] ∧
        ∀ d ∈ ds, Char.isDigit d))

/-- The Date matcher classification with the *amended* string rule: a
string is CONVERTED iff some prefix of it matches the pattern (with any
non-newline fraction separator); otherwise `""` is DEFAULTED and any
other string INCOMPATIBLE. -/
def dateClaimClass (v : LLSD) : Result :=
  match v with
  | .undef => DEFAULTED
  | .string s =>
    if dateREmatch s.toList then CONVERTED
    else if s = "" then DEFAULTED
    else INCOMPATIBLE
  | .date => MATCHED
  | _ => INCOMPATIBLE

/-- C10's classification of the String value-kind matcher: undefined→
DEFAULTED, strings→MATCHED, binary→INCOMPATIBLE, everything else
(including arrays and maps)→CONVERTED. -/
def stringClaimClass (v : LLSD) : Result :=
  match v with
  | .undef => DEFAULTED
  | .string _ => MATCHED
  | .binary _ => INCOMPATIBLE
  | _ => CONVERTED

/-- "alen rounded up to the next multiple of vlen", as a plain ceiling
formula on naturals. -/
def leastMultiple (alen vlen : Nat) : Nat := vlen * ((alen + vlen - 1) / vlen)

/-- One position of C1's claimed array fold: position `i` compares
`actual[i]` (undefined when `i ≥ alen`) against `children[i % vlen]`,
AND-folded into the accumulator (the unwinding path push mirrors the
source since errors must propagate identically). -/
def specFoldStep (cmp : Matcher → LLSD → Except Err Result) (values : List Matcher)
    (xs : List LLSD) (r : Result) (i : Nat) : Except Err Result :=
  match cmp (values.getD (i % values.length) .undefM) (xs.getD i LLSD.undef) with
  | .ok cr => .ok (rand r cr)
  | .error (.stack es) => .error (.stack (("_ArrayMatcher", none) :: es))
  | .error e => .error e

/-- C1's claimed array-matcher outcome: `tlen` positions (`alen` rounded
up to the next multiple of `vlen` when repeating, else `vlen`), folded
with AND from a base that includes ADDITIONAL exactly when not repeating
and `alen > vlen`. -/
def specArrayOutcome (cmp : Matcher → LLSD → Except Err Result) (values : List Matcher)
    (repeating : Bool) (xs : List LLSD) : Except Err Result :=
  let vlen := values.length
  let alen := xs.length
  if repeating && vlen == 0 then .error (.pyExc .zeroDivisionError)
  else
    let tlen := if repeating then leastMultiple alen vlen else vlen
    let base := if !repeating && decide (vlen < alen) then rand MATCHED ADDITIONAL else MATCHED
    (List.range tlen).foldlM (specFoldStep cmp values xs) base

/-! # Theorems -/

/-! ## Helper lemmas -/

theorem pyTruncQ_cast_of_den_one (q : ℚ) (h : q.den = 1) : (pyTruncQ q : ℚ) = q := by
  have hq : ((q.num : ℚ)) = q := by
    have hnd := Rat.num_div_den q
    rw [h] at hnd
    simpa using hnd
  unfold pyTruncQ
  split <;> rw [← hq] <;> simp

theorem den_one_of_pyTruncQ_cast (q : ℚ) (h : (pyTruncQ q : ℚ) = q) : q.den = 1 := by
  rw [← h]
  exact Rat.den_intCast _

theorem pyFloatEqInt_pyTruncQ (q : ℚ) :
    pyFloatEqInt (.finite q) (pyTruncQ q) = (q.den == 1) := by
  unfold pyFloatEqInt
  by_cases h : q.den = 1
  · simp [h, pyTruncQ_cast_of_den_one q h]
  · have hne : ¬((q : ℚ) = (pyTruncQ q : ℚ)) := fun hc =>
      h (den_one_of_pyTruncQ_cast q hc.symm)
    simp [h, hne]

theorem takeWhile_digits_append (ds t : List Char) (h : ∀ d ∈ ds, Char.isDigit d) :
    (ds ++ 'Z' :: t).takeWhile Char.isDigit = ds := by
  induction ds with
  | nil => simp [List.takeWhile_cons]
  | cons d ds ih =>
    have hd : Char.isDigit d := h d (List.mem_cons_self d ds)
    simp only [List.cons_append, List.takeWhile_cons, hd, if_true]
    rw [ih (fun x hx => h x (List.mem_cons_of_mem d hx))]

theorem dropWhile_digits_append (ds t : List Char) (h : ∀ d ∈ ds, Char.isDigit d) :
    (ds ++ 'Z' :: t).dropWhile Char.isDigit = 'Z' :: t := by
  have hfull := List.takeWhile_append_dropWhile (p := Char.isDigit) (l := ds ++ 'Z' :: t)
  rw [takeWhile_digits_append ds t h] at hfull
  exact List.append_cancel_left hfull

theorem roundup_facts (a v : Nat) (hv : 0 < v) :
    (v : Int) ∣ roundup a v ∧ (a : Int) ≤ roundup a v ∧ roundup a v < (a : Int) + v := by
  have hv' : (0 : Int) < v := by exact_mod_cast hv
  have hnz : (v : Int) ≠ 0 := ne_of_gt hv'
  have hmod : Int.emod ((a : Int) - 1) v = ((a : Int) - 1) - v * (((a : Int) - 1) / v) :=
    Int.emod_def _ v
  have h1 : 0 ≤ Int.emod ((a : Int) - 1) v := Int.emod_nonneg _ hnz
  have h2 : Int.emod ((a : Int) - 1) v < v := Int.emod_lt_of_pos _ hv'
  have hdef : roundup a v = ((a : Int) - 1) + (v - Int.emod ((a : Int) - 1) v) := rfl
  refine ⟨⟨((a : Int) - 1) / v + 1, ?_⟩, ?_, ?_⟩
  · rw [hdef, hmod]; ring
  · rw [hdef]; omega
  · rw [hdef]; omega

theorem eq_leastMultiple_of (a v R : Nat) (hd : v ∣ R)
    (h1 : a ≤ R) (h2 : R < a + v) : R = leastMultiple a v := by
  obtain ⟨k, rfl⟩ := hd
  have lo : k * v ≤ a + v - 1 := by
    rw [mul_comm k v]
    generalize hvk : v * k = t at h2 ⊢
    omega
  have hi : a + v - 1 < (k + 1) * v := by
    rw [add_mul, one_mul, mul_comm k v]
    generalize hvk : v * k = t at h1 ⊢
    omega
  have hdiv := Nat.div_eq_of_lt_le lo hi
  unfold leastMultiple
  rw [hdiv]

theorem roundup_toNat_facts (a v : Nat) (hv : 0 < v) :
    a ≤ (roundup a v).toNat ∧ (roundup a v).toNat < a + v ∧
    v ∣ (roundup a v).toNat ∧ (roundup a v).toNat = leastMultiple a v := by
  obtain ⟨hdvd, hle, hlt⟩ := roundup_facts a v hv
  have hnn : 0 ≤ roundup a v := le_trans (Int.ofNat_nonneg a) hle
  have hcast : ((roundup a v).toNat : Int) = roundup a v := Int.toNat_of_nonneg hnn
  have hleN : a ≤ (roundup a v).toNat := by
    have := hle
    rw [← hcast] at this
    exact_mod_cast this
  have hltN : (roundup a v).toNat < a + v := by
    have := hlt
    rw [← hcast] at this
    exact_mod_cast this
  have hdvdN : v ∣ (roundup a v).toNat := by
    have := hdvd
    rw [← hcast] at this
    exact_mod_cast this
  exact ⟨hleN, hltN, hdvdN, eq_leastMultiple_of a v _ hdvdN hleN hltN⟩

theorem arrayFold_eq_foldlM (cmp : Matcher → LLSD → Except Err Result)
    (values : List Matcher) (xs : List LLSD) :
    ∀ n i r, arrayFold cmp values xs r i n =
      (List.range' i n).foldlM (specFoldStep cmp values xs) r := by
  intro n
  induction n with
  | zero =>
    intro i r
    simp only [arrayFold, List.range'_zero, List.foldlM_nil]
    rfl
  | succ n ih =>
    intro i r
    rw [List.range'_succ, List.foldlM_cons]
    simp only [arrayFold, specFoldStep]
    cases hc : cmp (values.getD (i % values.length) .undefM) (xs.getD i LLSD.undef) with
    | ok cr =>
      simp only [Bind.bind, Except.bind]
      exact ih (i + 1) (rand r cr)
    | error e =>
      cases e <;> rfl

theorem arrayBodyG_eq_spec (cmp : Matcher → LLSD → Except Err Result)
    (values : List Matcher) (rep : Bool) (xs : List LLSD) :
    arrayBodyG cmp none values rep xs = specArrayOutcome cmp values rep xs := by
  have hloop : ∀ (r : Result) (tl : Nat),
      arrayFold cmp values xs r 0 tl =
        (List.range tl).foldlM (specFoldStep cmp values xs) r := by
    intro r tl
    rw [arrayFold_eq_foldlM cmp values xs tl 0 r, List.range_eq_range']
  unfold arrayBodyG specArrayOutcome
  cases rep with
  | true =>
    by_cases hz : values.length = 0
    · simp [hz]
    · have hv : 0 < values.length := Nat.pos_of_ne_zero hz
      obtain ⟨-, -, -, heq⟩ := roundup_toNat_facts xs.length values.length hv
      simp [hz, hloop, heq]
  | false =>
    by_cases ha : values.length < xs.length
    · simp [ha, hloop]
    · simp [ha, hloop]

theorem dateFixedPrefix_length {p : List Char} (hp : dateFixedPrefix p = true) :
    p.length = 19 := by
  unfold dateFixedPrefix at hp
  split at hp
  · simp_all
  · exact absurd hp (by simp)

theorem dateREmatch_iff (cs : List Char) : dateREmatch cs = true ↔ datePatternDecl cs := by
  constructor
  · intro h
    unfold dateREmatch at h
    rw [Bool.and_eq_true] at h
    obtain ⟨hp, ht⟩ := h
    refine ⟨cs.take 19, cs.drop 19, (List.take_append_drop 19 cs).symm, hp, ?_⟩
    cases hd : cs.drop 19 with
    | nil => rw [hd] at ht; exact absurd ht (by simp [dateTail])
    | cons c r2 =>
      rw [hd] at ht
      unfold dateTail at ht
      rw [Bool.or_eq_true] at ht
      rcases ht with hz | hfr
      · exact Or.inl ⟨r2, by rw [beq_iff_eq.mp hz]⟩
      · rw [Bool.and_eq_true, Bool.and_eq_true] at hfr
        obtain ⟨hnl, htw, hhd⟩ := hfr
        have hds : ∀ d ∈ r2.takeWhile Char.isDigit, Char.isDigit d :=
          fun d hdm => List.mem_takeWhile_imp hdm
        have hsplit := List.takeWhile_append_dropWhile (p := Char.isDigit) (l := r2)
        cases hdw : r2.dropWhile Char.isDigit with
        | nil => rw [hdw] at hhd; exact absurd hhd (by simp)
        | cons a t =>
          rw [hdw] at hhd
          have ha : a = 'Z' := by simpa using hhd
          refine Or.inr ⟨c, r2.takeWhile Char.isDigit, t, ?_, bne_iff_ne.mp hnl, ?_, hds⟩
          · rw [← ha, ← hdw, hsplit]
          · intro he
            rw [he] at htw
            exact absurd htw (by simp)
  · rintro ⟨p, restCs, rfl, hp, hcase⟩
    have hlen := dateFixedPrefix_length hp
    unfold dateREmatch
    rw [Bool.and_eq_true]
    refine ⟨by rw [← hlen, List.take_left]; exact hp, ?_⟩
    rw [← hlen, List.drop_left]
    rcases hcase with ⟨t, rfl⟩ | ⟨c, ds, t, rfl, hc, hne, hds⟩
    · simp [dateTail]
    · unfold dateTail
      rw [Bool.or_eq_true]
      right
      rw [Bool.and_eq_true, Bool.and_eq_true]
      refine ⟨bne_iff_ne.mpr hc, ?_, ?_⟩
      · rw [takeWhile_digits_append ds t hds]
        simpa using hne
      · rw [dropWhile_digits_append ds t hds]
        simp

/-! ## Claim theorems -/

/-- **C2**: for all outcomes `a`, `b` in the six-value lattice, `AND` is
commutative and its result is `<=` both operands; `OR` is commutative and
its result is `>=` both operands; and the asymmetric collapse holds:
`AND(ADDITIONAL, DEFAULTED) = AND(DEFAULTED, ADDITIONAL) = MIXED`. -/
theorem C2_lattice_and_or :
    (∀ a b : Result, rand a b = rand b a) ∧
    (∀ a b : Result, rle (rand a b) a = true ∧ rle (rand a b) b = true) ∧
    (∀ a b : Result, ror a b = ror b a) ∧
    (∀ a b : Result, rge (ror a b) a = true ∧ rge (ror a b) b = true) ∧
    rand ADDITIONAL DEFAULTED = MIXED ∧
    rand DEFAULTED ADDITIONAL = MIXED := by
  decide

/-- **C3 counterexample**: the claim "`ADDITIONAL == DEFAULTED` is false,
*neither* `ADDITIONAL < DEFAULTED` *nor* `DEFAULTED < ADDITIONAL` holds,
and both are `>= MIXED`" is false on the code: `_Result.__lt__` compares
the numeric `_value`s and `2.1 < 2.2`, so `ADDITIONAL < DEFAULTED` is
true. -/
theorem C3_counterexample :
    ¬(req ADDITIONAL DEFAULTED = false ∧
      rlt ADDITIONAL DEFAULTED = false ∧
      rlt DEFAULTED ADDITIONAL = false ∧
      rge ADDITIONAL MIXED = true ∧
      rge DEFAULTED MIXED = true) := by
  decide

/-- **C3 (amended)**: `ADDITIONAL == DEFAULTED` is false and
`DEFAULTED < ADDITIONAL` is false, but `ADDITIONAL < DEFAULTED` is *true*
(the `_value`s 2.1 < 2.2 order them); the threshold checks
`ADDITIONAL >= MIXED` and `DEFAULTED >= MIXED` both hold. -/
theorem C3_additional_defaulted_order :
    req ADDITIONAL DEFAULTED = false ∧
    rlt DEFAULTED ADDITIONAL = false ∧
    rlt ADDITIONAL DEFAULTED = true ∧
    rge ADDITIONAL MIXED = true ∧
    rge DEFAULTED MIXED = true := by
  decide

/-- **C4**: the Int value-kind matcher classifies every input exactly as
the spec states: undefined→DEFAULTED; bool→CONVERTED; int→MATCHED; a real
with an exact integral value→CONVERTED; ""→DEFAULTED; a string parseable
as a float with an exact integral value→CONVERTED; everything else
INCOMPATIBLE. -/
theorem C4_int_matcher_classification :
    ∀ v : LLSD, IntMatcher_compare v none = .ok (intClaimClass v) := by
  intro v
  cases v with
  | real x =>
    cases x with
    | finite q =>
      simp [IntMatcher_compare, intClaimClass, raiseCheck, pyInt,
        pyFloatEqInt_pyTruncQ, pyFloatIntegral]
    | inf => rfl
    | ninf => rfl
    | nan => rfl
  | string s =>
    by_cases hs : s = ""
    · subst hs; rfl
    · simp only [IntMatcher_compare, intClaimClass, raiseCheck, if_neg hs]
      cases hp : pyFloatOfString s with
      | none => simp [hs]
      | some f =>
        cases f with
        | finite q =>
          simp [pyInt, pyFloatEqInt_pyTruncQ, pyFloatIntegral]
        | inf => simp [pyInt, pyFloatIntegral, hs]
        | ninf => simp [pyInt, pyFloatIntegral, hs]
        | nan => simp [pyInt, pyFloatIntegral, hs]
  | undef => rfl
  | bool b => rfl
  | int n => rfl
  | date => rfl
  | uuidv => rfl
  | uri s => rfl
  | binary bs => rfl
  | array xs => rfl
  | map es => rfl

/-- **C9** (implicit): the True and False selector matchers treat
undefined asymmetrically — undefined vs the False selector is DEFAULTED
while undefined vs the True selector is INCOMPATIBLE, so
`valid(undefined)` is true for `false` and false for `true`. -/
theorem C9_true_false_undef_asymmetry :
    TrueMatcher_compare LLSD.undef none = .ok INCOMPATIBLE ∧
    FalseMatcher_compare LLSD.undef none = .ok DEFAULTED ∧
    validV none 1 .falseM .undef none = .ok true ∧
    validV none 1 .trueM .undef none = .ok false := by
  exact ⟨rfl, rfl, rfl, rfl⟩

/-- **C10** (implicit): the String value-kind matcher returns CONVERTED
for every value that is not undefined, not a string and not binary —
including arrays and maps — so composites pass a String schema at the
default CONVERTED threshold; only binary is INCOMPATIBLE. -/
theorem C10_string_matcher_composites :
    (∀ v : LLSD, StringMatcher_compare v none = .ok (stringClaimClass v)) ∧
    (∀ xs : List LLSD, matchV none 1 .stringM (.array xs) none CONVERTED = .ok true) ∧
    (∀ es : List (String × LLSD), matchV none 1 .stringM (.map es) none CONVERTED = .ok true) := by
  refine ⟨?_, ?_, ?_⟩
  · intro v; cases v <;> rfl
  · intro xs; rfl
  · intro es; rfl

/-- **C6** (code bug): `_NumberMatcher._compare` computes `n = int(actual)`
on the float branch *outside* any `try`, so comparing the matcher parsed
from `"16"` against a non-finite float raises (`OverflowError` for
infinity, `ValueError` for nan) even with `raises=None`, instead of
returning a lattice outcome. -/
theorem C6_number_matcher_raises_on_nonfinite :
    parse_value "16" = .ok (.numberM 16) ∧
    comp none 1 none (.numberM 16) (.real .inf) = .error (.pyExc .overflowError) ∧
    comp none 1 none (.numberM 16) (.real .ninf) = .error (.pyExc .overflowError) ∧
    comp none 1 none (.numberM 16) (.real .nan) = .error (.pyExc .valueError) ∧
    validV none 1 (.numberM 16) (.real .inf) none = .error (.pyExc .overflowError) ∧
    matchV none 1 (.numberM 16) (.real .inf) none CONVERTED =
      .error (.pyExc .overflowError) := by
  exact ⟨rfl, rfl, rfl, rfl, rfl, rfl⟩

/-- **C5 counterexample**: the claim says a string is CONVERTED iff it
matches the canonical timestamp pattern, and that strings with extra
characters after a canonical prefix, or with a non-`.` fraction
separator, are INCOMPATIBLE.  On the code, `_dateRE.match` is anchored
only at the start and uses `.` (any character), so
`"2009-02-06T22:17:38Zx"` (trailing garbage) and
`"2009-02-06T22:17:38x25Z"` (separator `x`) both yield CONVERTED. -/
theorem C5_counterexample :
    DateMatcher_compare (LLSD.string "2009-02-06T22:17:38Zx") none = .ok CONVERTED ∧
    canonicalTimestamp ("2009-02-06T22:17:38Zx".toList) = false ∧
    DateMatcher_compare (LLSD.string "2009-02-06T22:17:38x25Z") none = .ok CONVERTED ∧
    canonicalTimestamp ("2009-02-06T22:17:38x25Z".toList) = false ∧
    ¬(∀ s : String,
        DateMatcher_compare (.string s) none = .ok CONVERTED ↔
          canonicalTimestamp s.toList = true) := by
  refine ⟨rfl, rfl, rfl, rfl, fun h => ?_⟩
  have h2 := (h "2009-02-06T22:17:38Zx").mp rfl
  exact absurd h2 (by decide)

/-- **C5 (amended)**: the Date matcher yields DEFAULTED for undefined or
`""`; MATCHED for a native date/time value; CONVERTED for a string iff
*some prefix of it* matches `YYYY-MM-DDTHH:MM:SS[<any non-newline
char><digits>]Z` (the fraction separator may be any non-newline
character, and characters after the match are ignored); INCOMPATIBLE for
every other string and for every non-string, non-date value.  The second
conjunct characterises the regex test declaratively. -/
theorem C5_date_matcher_amended :
    (∀ v : LLSD, DateMatcher_compare v none = .ok (dateClaimClass v)) ∧
    (∀ cs : List Char, dateREmatch cs = true ↔ datePatternDecl cs) ∧
    DateMatcher_compare (.string "2009-02-06T22:17:38Z") none = .ok CONVERTED ∧
    DateMatcher_compare (.string "2009-02-06T22:17:38.0025Z") none = .ok CONVERTED ∧
    DateMatcher_compare (.string "2009-02-06T22:17:38x25Z") none = .ok CONVERTED ∧
    DateMatcher_compare (.string "2009-02-06T22:17:38Zx") none = .ok CONVERTED ∧
    DateMatcher_compare (.string "bob") none = .ok INCOMPATIBLE ∧
    DateMatcher_compare (.string "") none = .ok DEFAULTED ∧
    DateMatcher_compare .date none = .ok MATCHED ∧
    DateMatcher_compare (.int 3) none = .ok INCOMPATIBLE ∧
    DateMatcher_compare .undef none = .ok DEFAULTED := by
  refine ⟨?_, dateREmatch_iff, rfl, rfl, rfl, rfl, rfl, rfl, rfl, rfl, rfl⟩
  intro v
  cases v <;> rfl

/-- **C1**: for an array matcher with `vlen` declared children against a
sequence of length `alen`: when `repeating` the number of positions
compared is `alen` rounded up to the next multiple of `vlen` (`_roundup`
is divisible by `vlen`, is `≥ alen`, is `< alen + vlen`, and equals the
ceiling formula); the outcome is the AND-fold over positions `i` of
comparing `actual[i]` (undefined when `i ≥ alen`) against
`children[i % vlen]`, from a base that folds in ADDITIONAL exactly when
not repeating and `alen > vlen` (`specArrayOutcome`); and the round-trip
facts for the matcher parsed from `"[ int, int, int ]"` hold:
`has_defaulted` is true for `[]`, `[1]`, `[1,2]`, the outcome is
`>= DEFAULTED` for `[]`, `[1]`, `[1,2]`, `[1,2,3]`, and `has_additional`
is true for `[1,2,3,4]`. -/
theorem C1_array_matcher (alen vlen : Nat) (hv : 0 < vlen)
    (su : Option SuiteT) (fuel : Nat) (values : List Matcher) (rep : Bool)
    (xs : List LLSD) :
    ((vlen : Int) ∣ roundup alen vlen ∧ (alen : Int) ≤ roundup alen vlen ∧
      roundup alen vlen < (alen : Int) + vlen ∧
      (roundup alen vlen).toNat = leastMultiple alen vlen) ∧
    (comp su (fuel + 1) none (.arrayM values rep) (.array xs) =
        specArrayOutcome (comp su fuel none) values rep xs ∧
      comp su (fuel + 1) none (.arrayM values rep) .undef =
        specArrayOutcome (comp su fuel none) values rep []) ∧
    (parse_value "[ int, int, int ]" = .ok (.arrayM [.intM, .intM, .intM] false) ∧
      hasDefaultedV none 2 (.arrayM [.intM, .intM, .intM] false) (.array []) = .ok true ∧
      hasDefaultedV none 2 (.arrayM [.intM, .intM, .intM] false)
        (.array [.int 1]) = .ok true ∧
      hasDefaultedV none 2 (.arrayM [.intM, .intM, .intM] false)
        (.array [.int 1, .int 2]) = .ok true ∧
      comp none 2 none (.arrayM [.intM, .intM, .intM] false) (.array []) = .ok DEFAULTED ∧
      comp none 2 none (.arrayM [.intM, .intM, .intM] false)
        (.array [.int 1]) = .ok DEFAULTED ∧
      comp none 2 none (.arrayM [.intM, .intM, .intM] false)
        (.array [.int 1, .int 2]) = .ok DEFAULTED ∧
      comp none 2 none (.arrayM [.intM, .intM, .intM] false)
        (.array [.int 1, .int 2, .int 3]) = .ok MATCHED ∧
      rge DEFAULTED DEFAULTED = true ∧ rge MATCHED DEFAULTED = true ∧
      hasAdditionalV none 2 (.arrayM [.intM, .intM, .intM] false)
        (.array [.int 1, .int 2, .int 3, .int 4]) = .ok true) := by
  refine ⟨?_, ⟨?_, ?_⟩, rfl, rfl, rfl, rfl, rfl, rfl, rfl, rfl, rfl, rfl, rfl⟩
  · obtain ⟨h1, h2, h3⟩ := roundup_facts alen vlen hv
    obtain ⟨-, -, -, h4⟩ := roundup_toNat_facts alen vlen hv
    exact ⟨h1, h2, h3, h4⟩
  · exact arrayBodyG_eq_spec (comp su fuel none) values rep xs
  · exact arrayBodyG_eq_spec (comp su fuel none) values rep []

/-- Witness for C1 at `alen = 4`, `vlen = 3`. -/
theorem C1_array_matcher_witness :
    (3 : Int) ∣ roundup 4 3 ∧ ((4 : Nat) : Int) ≤ roundup 4 3 ∧
    roundup 4 3 < ((4 : Nat) : Int) + 3 ∧ (roundup 4 3).toNat = leastMultiple 4 3 :=
  (C1_array_matcher 4 3 (by decide) none 1 [.intM] true []).1

/-- **C7 counterexample**: the claim says the parse error lists the
missing names *sorted* and comma-joined; the code joins a Python `set`,
whose iteration order is hash-dependent, not sorted.  Under the identity
enumeration (an admissible order: a permutation of the missing set
`{b, a}`, here in first-reference order), the suite referencing `&b`
then `&a` produces the message `"... b, a"`, which differs from the
sorted join `"... a, b"`. -/
theorem C7_counterexample :
    parse_suite (fun l => l) "%% foo\n-> &b\n<- &a\n" =
      .error ⟨"missing definitions of variants: b, a", 4, 1⟩ ∧
    List.Perm ["b", "a"] ["a", "b"] ∧
    List.Sorted (fun x y : String => x ≤ y) ["a", "b"] ∧
    "missing definitions of variants: b, a" ≠
      "missing definitions of variants: " ++ String.intercalate ", " ["a", "b"] := by
  refine ⟨rfl, List.Perm.swap _ _ _, ?_, by decide⟩
  simp [List.sorted_cons]
  decide

/-- **C7 (amended)**: `parse_suite` finishes by computing the set of
variant names referenced in any request/response tree minus the defined
names; if non-empty it raises a parse error joining the missing names
with `", "` in the *unspecified iteration order of a Python set* (not
necessarily sorted).  In particular a suite referencing `&geometry`
without defining it fails with an error naming `geometry` (under every
admissible enumeration of the one-element missing set). -/
theorem C7_missing_variants (enum : List String → List String)
    (h : (enum ["geometry"]).Perm ["geometry"]) :
    parse_suite enum "%% foo\n-> &geometry\n<- undef\n" =
      .error ⟨"missing definitions of variants: geometry", 4, 1⟩ ∧
    (∀ (su : SuiteT) (n : String),
      n ∈ missingVariants su ↔ n ∈ allRefs su ∧ su.variants.lookup n = none) ∧
    (∀ su : SuiteT, missingVariants su = [] ↔
      ∀ m ∈ allRefs su, (su.variants.lookup m).isSome) := by
  refine ⟨?_, ?_, ?_⟩
  · have he : enum ["geometry"] = ["geometry"] := List.perm_singleton.mp h
    have hrfl : parse_suite enum "%% foo\n-> &geometry\n<- undef\n" =
        .error ⟨"missing definitions of variants: " ++
          String.intercalate ", " (enum ["geometry"]), 4, 1⟩ := rfl
    rw [hrfl, he]
    rfl
  · intro su n
    unfold missingVariants
    simp [List.mem_filter, List.mem_dedup, Option.isNone_iff_eq_none]
  · intro su
    unfold missingVariants
    rw [List.filter_eq_nil_iff]
    simp [List.mem_dedup, Option.isNone_iff_eq_none, Option.ne_none_iff_isSome]

/-- Witness for C7 under the identity enumeration. -/
theorem C7_missing_variants_witness :
    parse_suite (fun l => l) "%% foo\n-> &geometry\n<- undef\n" =
      .error ⟨"missing definitions of variants: geometry", 4, 1⟩ :=
  (C7_missing_variants (fun l => l) (List.Perm.refl _)).1

/-- **C8**: for every Suite and every resource name not present in it,
`match_request`, `match_response`, `valid_request` and `valid_response`
raise the "not found" `MatchError` for any value, any `raises` argument
(including `None`) and any match level — they never return `False` for
an unknown resource name. -/
theorem C8_unknown_resource (su : SuiteT) (name : String)
    (hreq : su.requests.lookup name = none) (hres : su.responses.lookup name = none)
    (fuel : Nat) (actual : LLSD) (raises : Option Raises) (level : Result) :
    matchRequest su fuel name actual raises level =
      .error (.matchErr ⟨notFoundMsg name⟩) ∧
    matchResponse su fuel name actual raises level =
      .error (.matchErr ⟨notFoundMsg name⟩) ∧
    validRequest su fuel name actual raises = .error (.matchErr ⟨notFoundMsg name⟩) ∧
    validResponse su fuel name actual raises = .error (.matchErr ⟨notFoundMsg name⟩) := by
  unfold matchRequest matchResponse validRequest validResponse getRequest getResponse
  rw [hreq, hres]
  exact ⟨rfl, rfl, rfl, rfl⟩

/-- Witness for C8: an empty suite and the name `nonexistent/path`. -/
theorem C8_unknown_resource_witness :
    matchRequest SuiteEmpty 1 "nonexistent/path" (.map []) none CONVERTED =
      .error (.matchErr ⟨notFoundMsg "nonexistent/path"⟩) ∧
    matchResponse SuiteEmpty 1 "nonexistent/path" (.map []) none CONVERTED =
      .error (.matchErr ⟨notFoundMsg "nonexistent/path"⟩) ∧
    validRequest SuiteEmpty 1 "nonexistent/path" (.map []) none =
      .error (.matchErr ⟨notFoundMsg "nonexistent/path"⟩) ∧
    validResponse SuiteEmpty 1 "nonexistent/path" (.map []) none =
      .error (.matchErr ⟨notFoundMsg "nonexistent/path"⟩) :=
  C8_unknown_resource SuiteEmpty "nonexistent/path" rfl rfl 1 (.map []) none CONVERTED
